import Mathlib

/-!
Verification of the Tutor conversation orchestrator.

The repository has three near-duplicate variants of a round-robin
multi-agent conversation loop:

* `main.py`   — batch variant against a local inference endpoint,
* `app.py`    — incremental (generator) UI variant,
* `tutor_openai.py` — batch variant against the hosted API with
  token/cost accounting.

This file gives a shallow embedding of the core logic of each variant.
The underlying chat-completion call (network I/O) is modelled by an
oracle of type `Except String String` (error cause, or returned text);
each per-turn call is keyed by its turn index.  Sampling parameters
(temperature, top-p, max-tokens) are passed through to the HTTP client
unchanged in the source and influence none of the verified properties,
so they are not carried in the embedding.  Monetary arithmetic (Python
floats in the source) is embedded in exact rationals.
-/

/-- A role-tagged chat message, as sent to a chat-completion endpoint. -/
structure Msg where
  role : String
  content : String
deriving DecidableEq, Repr

/-- A transcript entry of the batch variants: `{"speaker": ..., "message": ...}`. -/
structure Entry where
  speaker : String
  message : String
deriving DecidableEq, Repr

/-- One recorded provider call: the model id and the message list passed to it. -/
structure Call where
  model : String
  messages : List Msg
deriving DecidableEq, Repr

/-- Python's `sep.join(lines)`: empty for `[]`, the sole element for a
singleton, and elements interleaved with `sep` otherwise. -/
def joinSep (sep : String) : List String → String
  | [] => ""
  | [x] => x
  | x :: y :: ys => x ++ sep ++ joinSep sep (y :: ys)

namespace Main

/-- `INITIAL_TOPIC` from `main.py`. -/
def INITIAL_TOPIC : String :=
  "Let\x27s start learning Python from the very beginning. Show us the first thing every programmer learns!"

/-- A participant dict of `main.py`'s `run_conversation` (sampling config omitted). -/
structure Participant where
  name : String
  model : String
  prompt : String
deriving DecidableEq, Repr

/-- `call_ollama` from `main.py`: the `try` block's completion call is the
`result` oracle; an exception is converted to the sentinel text and never
re-raised (the function is total). -/
def call_ollama (model : String) (messages : List Msg)
    (result : Except String String) : String :=
  match result with
  | Except.ok content => content
  | Except.error e => "[Error calling " ++ model ++ ": " ++ e ++ "]"

/-- `format_conversation` from `main.py`. -/
def format_conversation (history : List Entry) : String :=
  if history.isEmpty then "No conversation yet."
  else joinSep "\n\n" (history.map (fun entry => entry.speaker ++ ": " ++ entry.message))

/-- The `user_prompt` built inside `get_next_response` of `main.py`. -/
def user_prompt_of (speaker_name : String) (conversation_history : List Entry) : String :=
  if conversation_history.isEmpty then
    "You are " ++ speaker_name ++ ".\nThe topic to discuss is: " ++ INITIAL_TOPIC ++
      "\n\nStart the conversation by introducing the topic and asking an opening question."
  else
    "You are " ++ speaker_name ++ ".\n\nThe conversation so far is:\n" ++
      format_conversation conversation_history ++
      "\n\nNow respond with what you would like to say next, as " ++ speaker_name ++
      ". Be natural and conversational."

/-- The two-element `messages` list built inside `get_next_response` of `main.py`. -/
def messages_of (system_prompt speaker_name : String)
    (conversation_history : List Entry) : List Msg :=
  [⟨"system", system_prompt⟩, ⟨"user", user_prompt_of speaker_name conversation_history⟩]

/-- `get_next_response` from `main.py`. -/
def get_next_response (model system_prompt speaker_name : String)
    (conversation_history : List Entry) (result : Except String String) : String :=
  call_ollama model (messages_of system_prompt speaker_name conversation_history) result

/-- The `while turn < MAX_TURNS` loop of `run_conversation` in `main.py`,
embedded with fuel `n` (the number of remaining turns) and the current
`turn` counter.  `participants[turn % 3]` is the source's hardcoded mod-3
indexing; an out-of-range index (a Python `IndexError` aborting the run)
is `none`.  The provider calls made are recorded alongside the transcript. -/
def run_loop (participants : List Participant) (oracle : Nat → Except String String)
    (history : List Entry) (calls : List Call) (turn : Nat) :
    Nat → Option (List Entry × List Call)
  | 0 => some (history, calls)
  | n + 1 =>
    match participants[turn % 3]? with
    | none => none
    | some participant =>
      let response := get_next_response participant.model participant.prompt
        participant.name history (oracle turn)
      run_loop participants oracle
        (history ++ [⟨participant.name, response⟩])
        (calls ++ [⟨participant.model, messages_of participant.prompt participant.name history⟩])
        (turn + 1) n

/-- `run_conversation` from `main.py`, returning the final transcript. -/
def run_conversation (participants : List Participant) (maxTurns : Nat)
    (oracle : Nat → Except String String) : Option (List Entry) :=
  (run_loop participants oracle [] [] 0 maxTurns).map (fun r => r.1)

/-- The sequence of provider calls made by `run_conversation`. -/
def run_calls (participants : List Participant) (maxTurns : Nat)
    (oracle : Nat → Except String String) : Option (List Call) :=
  (run_loop participants oracle [] [] 0 maxTurns).map (fun r => r.2)

end Main

namespace App

/-- An internal-history entry of `app.py`'s `run_conversation_step`:
`{"name": ..., "content": ...}`. -/
structure Entry where
  name : String
  content : String
deriving DecidableEq, Repr

/-- A participant dict of `app.py`'s `run_conversation_step`
(sampling config omitted). -/
structure Participant where
  name : String
  role : String
  source : String
  model : String
  prompt : String
  avatar : String
deriving DecidableEq, Repr

/-- `call_llm` from `app.py`: client selection by `source` and the
completion call are the `result` oracle (the base URL and API key select
the client but do not shape the returned text); an exception is
converted to the sentinel text, which here also names the source. -/
def call_llm (model : String) (messages : List Msg)
    (source ollama_url api_key : String) (result : Except String String) : String :=
  match result with
  | Except.ok content => content
  | Except.error e =>
    "[Error calling " ++ model ++ " via " ++ source ++ ": " ++ e ++ "]"

/-- `format_conversation_for_prompt` from `app.py` (the `"name"` and
`"content"` keys are always present on entries built by the loop, so the
dict-get defaults are never consulted). -/
def format_conversation_for_prompt (history : List Entry) : String :=
  if history.isEmpty then "No conversation yet."
  else joinSep "\n\n" (history.map (fun entry => entry.name ++ ": " ++ entry.content))

/-- The `user_prompt` built inside the loop of `run_conversation_step`. -/
def user_prompt_of (topic speaker_name : String) (history : List Entry) : String :=
  if history.isEmpty then
    "You are " ++ speaker_name ++ ".\nThe topic to discuss is: " ++ topic ++
      "\n\nStart the conversation by introducing the topic and asking an opening question."
  else
    "You are " ++ speaker_name ++ ".\n\nThe conversation so far is:\n" ++
      format_conversation_for_prompt history ++
      "\n\nNow respond with what you would like to say next, as " ++ speaker_name ++
      ". Be natural and conversational."

/-- The two-element `messages` list passed to `call_llm` by the loop. -/
def messages_of (topic system_prompt speaker_name : String)
    (history : List Entry) : List Msg :=
  [⟨"system", system_prompt⟩, ⟨"user", user_prompt_of topic speaker_name history⟩]

/-- The `while turn < max_turns` loop of `run_conversation_step` in
`app.py`, embedded with fuel `n`.  The loop threads the internal history,
the chatbot message list it yields after every turn, and (for
verification) the provider calls made.  The cosmetic `time.sleep(0.5)`
pacing delay has no effect on any produced value and is omitted. -/
def run_loop (participants : List Participant)
    (topic ollama_url api_key : String) (oracle : Nat → Except String String)
    (history : List Entry) (messages : List Msg) (calls : List Call) (turn : Nat) :
    Nat → Option (List Entry × List Msg × List Call)
  | 0 => some (history, messages, calls)
  | n + 1 =>
    match participants[turn % 3]? with
    | none => none
    | some participant =>
      let msgs := messages_of topic participant.prompt participant.name history
      let response_text :=
        call_llm participant.model msgs participant.source ollama_url api_key (oracle turn)
      let formatted_content :=
        "**" ++ participant.name ++ "** " ++ participant.avatar ++ ":\n\n" ++ response_text
      run_loop participants topic ollama_url api_key oracle
        (history ++ [⟨participant.name, response_text⟩])
        (messages ++ [⟨"assistant", formatted_content⟩])
        (calls ++ [⟨participant.model, msgs⟩])
        (turn + 1) n

/-- `run_conversation_step` from `app.py`: the full run, returning the
final internal history, the chatbot messages (whose prefixes are what the
generator yields turn by turn), and the calls made. -/
def run_conversation_step (participants : List Participant)
    (topic ollama_url api_key : String) (maxTurns : Nat)
    (oracle : Nat → Except String String) :
    Option (List Entry × List Msg × List Call) :=
  run_loop participants topic ollama_url api_key oracle [] [] [] 0 maxTurns

/-- The final internal history of `run_conversation_step`. -/
def run_step_history (participants : List Participant)
    (topic ollama_url api_key : String) (maxTurns : Nat)
    (oracle : Nat → Except String String) : Option (List Entry) :=
  (run_conversation_step participants topic ollama_url api_key maxTurns oracle).map
    (fun r => r.1)

/-- The sequence of provider calls made by `run_conversation_step`. -/
def run_step_calls (participants : List Participant)
    (topic ollama_url api_key : String) (maxTurns : Nat)
    (oracle : Nat → Except String String) : Option (List Call) :=
  (run_conversation_step participants topic ollama_url api_key maxTurns oracle).map
    (fun r => r.2.2)

end App

namespace TutorOpenai

/-- `INITIAL_TOPIC` from `tutor_openai.py` (same text as `main.py`). -/
def INITIAL_TOPIC : String :=
  "Let\x27s start learning Python from the very beginning. Show us the first thing every programmer learns!"

/-- `PRICING` from `tutor_openai.py`: dollars per million tokens, as
exact rationals (2.50, 10.00, 3.00, 12.00, 0.150, 0.600). -/
def PRICING : List (String × ℚ × ℚ) :=
  [("gpt-4o", ((5 : ℚ) / 2, 10)),
   ("o1-mini", (3, 12)),
   ("gpt-4o-mini", ((3 : ℚ) / 20, (3 : ℚ) / 5))]

/-- One element of `TokenTracker.interactions`. -/
structure Interaction where
  model : String
  input_tokens : Nat
  output_tokens : Nat
  cost : ℚ
deriving DecidableEq, Repr

/-- The `TokenTracker` state from `tutor_openai.py`. -/
structure TokenTracker where
  interactions : List Interaction
  total_input_tokens : Nat
  total_output_tokens : Nat
  total_cost : ℚ
deriving DecidableEq, Repr

/-- `TokenTracker.__init__`. -/
def TokenTracker.init : TokenTracker :=
  ⟨[], 0, 0, 0⟩

/-- `TokenTracker.add_interaction`: the mutation of `self` is embedded as
returning the updated tracker together with the returned per-call cost.
`PRICING.get(model, zero-default)` is the association-list lookup with
default `(0, 0)`. -/
def TokenTracker.add_interaction (self : TokenTracker) (model : String)
    (input_tokens output_tokens : Nat) : TokenTracker × ℚ :=
  let pricing := (PRICING.lookup model).getD (0, 0)
  let input_cost := ((input_tokens : ℚ) / 1000000) * pricing.1
  let output_cost := ((output_tokens : ℚ) / 1000000) * pricing.2
  let total := input_cost + output_cost
  (⟨self.interactions ++ [⟨model, input_tokens, output_tokens, total⟩],
    self.total_input_tokens + input_tokens,
    self.total_output_tokens + output_tokens,
    self.total_cost + total⟩,
   total)

/-- Folding a sequence of `(model, input_tokens, output_tokens)` recordings
into a fresh tracker. -/
def record_all (ops : List (String × Nat × Nat)) : TokenTracker :=
  ops.foldl (fun t op => (t.add_interaction op.1 op.2.1 op.2.2).1) TokenTracker.init

/-- `call_openai` from `tutor_openai.py`: on success the oracle yields the
content and the usage counts (`prompt_tokens`, `completion_tokens`), which
are recorded on the tracker; an exception yields the sentinel text and the
tracker is left untouched. -/
def call_openai (model : String) (messages : List Msg) (tracker : TokenTracker)
    (result : Except String (String × Nat × Nat)) : String × TokenTracker :=
  match result with
  | Except.ok r =>
    (r.1, (tracker.add_interaction model r.2.1 r.2.2).1)
  | Except.error e =>
    ("[Error calling " ++ model ++ ": " ++ e ++ "]", tracker)

/-- `format_conversation` from `tutor_openai.py` (same text as `main.py`). -/
def format_conversation (history : List Entry) : String :=
  if history.isEmpty then "No conversation yet."
  else joinSep "\n\n" (history.map (fun entry => entry.speaker ++ ": " ++ entry.message))

/-- The `user_prompt` built inside `get_next_response` of `tutor_openai.py`. -/
def user_prompt_of (speaker_name : String) (conversation_history : List Entry) : String :=
  if conversation_history.isEmpty then
    "You are " ++ speaker_name ++ ".\nThe topic to discuss is: " ++ INITIAL_TOPIC ++
      "\n\nStart the conversation by introducing the topic and asking an opening question."
  else
    "You are " ++ speaker_name ++ ".\n\nThe conversation so far is:\n" ++
      format_conversation conversation_history ++
      "\n\nNow respond with what you would like to say next, as " ++ speaker_name ++
      ". Be natural and conversational."

/-- `get_next_response` from `tutor_openai.py`. -/
def get_next_response (model system_prompt speaker_name : String)
    (conversation_history : List Entry) (tracker : TokenTracker)
    (result : Except String (String × Nat × Nat)) : String × TokenTracker :=
  call_openai model
    [⟨"system", system_prompt⟩, ⟨"user", user_prompt_of speaker_name conversation_history⟩]
    tracker result

/-- The bookkeeping invariant of `TokenTracker`: every aggregate field is
the sum of the corresponding per-interaction fields. -/
def TokenTracker.Inv (t : TokenTracker) : Prop :=
  t.total_input_tokens = (t.interactions.map Interaction.input_tokens).sum ∧
  t.total_output_tokens = (t.interactions.map Interaction.output_tokens).sum ∧
  t.total_cost = (t.interactions.map Interaction.cost).sum

end TutorOpenai

/-- An oracle on which every provider call succeeds with the text "hi". -/
def okOracle : Nat → Except String String :=
  fun _ => Except.ok "hi"

/-- An oracle failing exactly on turn 1 (a deterministic provider failure). -/
def failSecondOracle : Nat → Except String String :=
  fun turn => if turn = 1 then Except.error "connection refused" else Except.ok "hi"

/-- The three participants configured in `main.py`'s `run_conversation`
(system prompts abridged to their opening words; no verified property
depends on the prompt bodies). -/
def ps3 : List Main.Participant :=
  [⟨"Professor Maya", "llama3.2:latest", "You are Professor Maya"⟩,
   ⟨"Curious George", "llama3.2:1b", "You are Curious George"⟩,
   ⟨"Handson Alex", "gemma3:1b", "You are Handson Alex"⟩]

/-- A four-participant list with pairwise distinct names. -/
def ps4 : List Main.Participant :=
  [⟨"A", "mA", "pA"⟩, ⟨"B", "mB", "pB"⟩, ⟨"C", "mC", "pC"⟩, ⟨"D", "mD", "pD"⟩]

/-- The three participants configured in `app.py`'s `run_conversation_step`,
with the same names, models and prompts as `ps3`. -/
def psApp3 : List App.Participant :=
  [⟨"Professor Maya", "Teacher", "Ollama", "llama3.2:latest", "You are Professor Maya", "T"⟩,
   ⟨"Curious George", "Student", "Ollama", "llama3.2:1b", "You are Curious George", "S1"⟩,
   ⟨"Handson Alex", "Student", "Ollama", "gemma3:1b", "You are Handson Alex", "S2"⟩]

/-- Loop invariant of `main.py`'s conversation loop for the program's fixed
participant count 3: the loop always completes, appends exactly one entry per
remaining turn, records one provider call per turn, and entry `k` is spoken by
`participants[(turn + k) % 3]` with content produced by `get_next_response`
over the transcript-so-far. -/
theorem main_run_loop_spec (ps : List Main.Participant) (hps : ps.length = 3)
    (oracle : Nat → Except String String) :
    ∀ (n turn : Nat) (history : List Entry) (calls : List Call),
      ∃ (t : List Entry) (cs : List Call),
        Main.run_loop ps oracle history calls turn n = some (history ++ t, calls ++ cs) ∧
        t.length = n ∧ cs.length = n ∧
        (∀ k, k < n → ∃ p : Main.Participant,
          ps[(turn + k) % 3]? = some p ∧
          t[k]? = some ⟨p.name, Main.get_next_response p.model p.prompt p.name
            (history ++ t.take k) (oracle (turn + k))⟩ ∧
          cs[k]? = some ⟨p.model, Main.messages_of p.prompt p.name (history ++ t.take k)⟩) := by
  intro n
  induction n with
  | zero =>
    intro turn history calls
    exact ⟨[], [], by simp [Main.run_loop], rfl, rfl, by intro k hk; omega⟩
  | succ n ih =>
    intro turn history calls
    have hidx : turn % 3 < ps.length := by
      rw [hps]; exact Nat.mod_lt _ (by norm_num)
    obtain ⟨p, hp⟩ : ∃ p, ps[turn % 3]? = some p :=
      ⟨ps[turn % 3], List.getElem?_eq_getElem hidx⟩
    obtain ⟨t', c', hrun, hlen, hclen, hprop⟩ :=
      ih (turn + 1)
        (history ++ [⟨p.name, Main.get_next_response p.model p.prompt p.name history (oracle turn)⟩])
        (calls ++ [⟨p.model, Main.messages_of p.prompt p.name history⟩])
    refine ⟨⟨p.name, Main.get_next_response p.model p.prompt p.name history (oracle turn)⟩ :: t',
            ⟨p.model, Main.messages_of p.prompt p.name history⟩ :: c', ?_, by simp [hlen],
            by simp [hclen], ?_⟩
    · simp only [Main.run_loop, hp]
      rw [hrun]
      simp
    · intro k hk
      match k with
      | 0 =>
        refine ⟨p, by simpa using hp, by simp, by simp⟩
      | k + 1 =>
        obtain ⟨p', hp', ht', hc'⟩ := hprop k (by omega)
        have harith : turn + (k + 1) = turn + 1 + k := by omega
        refine ⟨p', by rw [harith]; exact hp', ?_, ?_⟩
        · rw [harith]
          simpa [List.take_succ_cons, List.append_assoc] using ht'
        · simpa [List.take_succ_cons, List.append_assoc] using hc'

/-- Loop invariant of `app.py`'s generator loop, analogous to
`main_run_loop_spec`: one internal-history entry, one chatbot message and one
provider call per turn, with the entry spoken by `participants[(turn + k) % 3]`
and its content produced by `call_llm` on the synthesized two-message payload. -/
theorem app_run_loop_spec (ps : List App.Participant) (hps : ps.length = 3)
    (topic ollama_url api_key : String) (oracle : Nat → Except String String) :
    ∀ (n turn : Nat) (history : List App.Entry) (messages : List Msg) (calls : List Call),
      ∃ (t : List App.Entry) (m : List Msg) (cs : List Call),
        App.run_loop ps topic ollama_url api_key oracle history messages calls turn n =
          some (history ++ t, messages ++ m, calls ++ cs) ∧
        t.length = n ∧ m.length = n ∧ cs.length = n ∧
        (∀ k, k < n → ∃ p : App.Participant,
          ps[(turn + k) % 3]? = some p ∧
          t[k]? = some ⟨p.name,
            App.call_llm p.model (App.messages_of topic p.prompt p.name (history ++ t.take k))
              p.source ollama_url api_key (oracle (turn + k))⟩ ∧
          cs[k]? = some ⟨p.model, App.messages_of topic p.prompt p.name (history ++ t.take k)⟩) := by
  intro n
  induction n with
  | zero =>
    intro turn history messages calls
    exact ⟨[], [], [], by simp [App.run_loop], rfl, rfl, rfl, by intro k hk; omega⟩
  | succ n ih =>
    intro turn history messages calls
    have hidx : turn % 3 < ps.length := by
      rw [hps]; exact Nat.mod_lt _ (by norm_num)
    obtain ⟨p, hp⟩ : ∃ p, ps[turn % 3]? = some p :=
      ⟨ps[turn % 3], List.getElem?_eq_getElem hidx⟩
    obtain ⟨t', m', c', hrun, hlen, hmlen, hclen, hprop⟩ :=
      ih (turn + 1)
        (history ++ [⟨p.name,
          App.call_llm p.model (App.messages_of topic p.prompt p.name history)
            p.source ollama_url api_key (oracle turn)⟩])
        (messages ++ [⟨"assistant",
          "**" ++ p.name ++ "** " ++ p.avatar ++ ":\n\n" ++
            App.call_llm p.model (App.messages_of topic p.prompt p.name history)
              p.source ollama_url api_key (oracle turn)⟩])
        (calls ++ [⟨p.model, App.messages_of topic p.prompt p.name history⟩])
    refine ⟨⟨p.name,
              App.call_llm p.model (App.messages_of topic p.prompt p.name history)
                p.source ollama_url api_key (oracle turn)⟩ :: t',
            ⟨"assistant",
              "**" ++ p.name ++ "** " ++ p.avatar ++ ":\n\n" ++
                App.call_llm p.model (App.messages_of topic p.prompt p.name history)
                  p.source ollama_url api_key (oracle turn)⟩ :: m',
            ⟨p.model, App.messages_of topic p.prompt p.name history⟩ :: c',
            ?_, by simp [hlen], by simp [hmlen], by simp [hclen], ?_⟩
    · simp only [App.run_loop, hp]
      rw [hrun]
      simp
    · intro k hk
      match k with
      | 0 =>
        refine ⟨p, by simpa using hp, by simp, by simp⟩
      | k + 1 =>
        obtain ⟨p', hp', ht', hc'⟩ := hprop k (by omega)
        have harith : turn + (k + 1) = turn + 1 + k := by omega
        refine ⟨p', by rw [harith]; exact hp', ?_, ?_⟩
        · rw [harith]
          simpa [List.take_succ_cons, List.append_assoc] using ht'
        · simpa [List.take_succ_cons, List.append_assoc] using hc'

/-- C1 (counterexample): the claim quantifies over every participant count
`N ≥ 1`, but the code indexes `participants[turn % 3]` with a hardcoded 3.
With four distinctly named participants and `max_turns = 4` the run completes
(all mod-3 indices are in range), yet entry 3 is spoken by `participants[0]`
("A"), not `participants[3 mod 4]` ("D") as the claim requires. -/
theorem c1_counterexample :
    1 ≤ ps4.length ∧
    (Main.run_conversation ps4 4 okOracle).map (fun t => t.map Entry.speaker) =
      some ["A", "B", "C", "A"] ∧
    (ps4[3 % ps4.length]?).map Main.Participant.name = some "D" ∧
    ((Main.run_conversation ps4 4 okOracle).bind (fun t => t[3]?)).map Entry.speaker ≠
      (ps4[3 % ps4.length]?).map Main.Participant.name := by
  refine ⟨by decide, rfl, by decide, by decide⟩

/-- C1 (amended): for the participant count the code actually supports,
`N = 3` (the hardcoded `participants[turn % 3]`): for every list of 3
participants and every `max_turns ≥ 0`, the run completes with exactly
`max_turns` entries and entry `i` is spoken by `participants[i mod 3]`. -/
theorem c1_round_robin_mod3 (ps : List Main.Participant) (maxTurns : Nat)
    (oracle : Nat → Except String String) (hps : ps.length = 3) :
    ∃ transcript, Main.run_conversation ps maxTurns oracle = some transcript ∧
      transcript.length = maxTurns ∧
      ∀ i, i < maxTurns →
        transcript[i]?.map Entry.speaker = (ps[i % 3]?).map Main.Participant.name := by
  obtain ⟨t, cs, hrun, hlen, hclen, hprop⟩ := main_run_loop_spec ps hps oracle maxTurns 0 [] []
  refine ⟨t, by simp [Main.run_conversation, hrun], hlen, ?_⟩
  intro i hi
  obtain ⟨p, hp, ht, hc⟩ := hprop i hi
  simp only [Nat.zero_add] at hp ht
  rw [ht, hp]
  rfl

/-- C1 witness: the amended theorem at the program's own three participants
and `max_turns = 5`. -/
theorem c1_round_robin_mod3_witness :
    ps3.length = 3 ∧
    ∃ transcript, Main.run_conversation ps3 5 okOracle = some transcript ∧
      transcript.length = 5 ∧
      ∀ i, i < 5 →
        transcript[i]?.map Entry.speaker = (ps3[i % 3]?).map Main.Participant.name :=
  ⟨by decide, c1_round_robin_mod3 ps3 5 okOracle (by decide)⟩

/-- C3: if the provider fails deterministically on turn `t`, the run still
completes with exactly `max_turns` entries, and the entry appended for turn `t`
has content starting with (hence containing) the pattern "[Error calling ". -/
theorem c3_error_containment (ps : List Main.Participant) (maxTurns t : Nat)
    (e : String) (oracle : Nat → Except String String) (hps : ps.length = 3)
    (ht : t < maxTurns) (he : oracle t = Except.error e) :
    ∃ transcript, Main.run_conversation ps maxTurns oracle = some transcript ∧
      transcript.length = maxTurns ∧
      ∃ tail, transcript[t]?.map Entry.message = some ("[Error calling " ++ tail) := by
  obtain ⟨tr, cs, hrun, hlen, hclen, hprop⟩ := main_run_loop_spec ps hps oracle maxTurns 0 [] []
  refine ⟨tr, by simp [Main.run_conversation, hrun], hlen, ?_⟩
  obtain ⟨p, hp, htr, hc⟩ := hprop t ht
  simp only [Nat.zero_add] at htr
  refine ⟨p.model ++ (": " ++ (e ++ "]")), ?_⟩
  rw [htr]
  simp [Main.get_next_response, Main.call_ollama, he, String.append_assoc]

/-- C3 witness: with the program's three participants, `max_turns = 4` and a
provider failing exactly on turn 1, the run completes with 4 entries and entry
1 carries the error sentinel. -/
theorem c3_error_containment_witness :
    ps3.length = 3 ∧ 1 < 4 ∧ failSecondOracle 1 = Except.error "connection refused" ∧
    (∃ transcript, Main.run_conversation ps3 4 failSecondOracle = some transcript ∧
      transcript.length = 4 ∧
      ∃ tail, transcript[1]?.map Entry.message = some ("[Error calling " ++ tail)) :=
  ⟨by decide, by decide, rfl,
   c3_error_containment ps3 4 1 "connection refused" failSecondOracle (by decide)
     (by decide) rfl⟩

/-- C2 (counterexample): the UI variant's sentinel inserts " via <source>"
between the model id and the colon, so its text is not of the exact shape
"[Error calling <model_id>: <cause>]" — no choice of cause makes the two
strings coincide (they differ at character 16). -/
theorem c2_counterexample :
    App.call_llm "m" [] "Ollama" "u" "k" (Except.error "boom") =
      "[Error calling m via Ollama: boom]" ∧
    ¬ ∃ cause : String,
        App.call_llm "m" [] "Ollama" "u" "k" (Except.error "boom") =
          "[Error calling m: " ++ (cause ++ "]") := by
  refine ⟨rfl, ?_⟩
  rintro ⟨cause, hc⟩
  have hdata := congrArg String.data hc
  rw [String.data_append] at hdata
  have h16 := congrArg (fun l => l[16]?) hdata
  simp only at h16
  rw [List.getElem?_append_left (by decide)] at h16
  revert h16
  decide

/-- C2 (amended): whenever the underlying completion call raises, every
variant catches the exception and returns a sentinel text instead of
propagating (each embedded function is total): the local-inference and
hosted-API variants return exactly "[Error calling <model_id>: <cause>]",
while the UI variant returns "[Error calling <model_id> via <source>: <cause>]";
the hosted-API variant additionally leaves its token tracker untouched. -/
theorem c2_error_sentinel_shapes :
    (∀ (model : String) (messages : List Msg) (cause : String),
      Main.call_ollama model messages (Except.error cause) =
        "[Error calling " ++ model ++ ": " ++ cause ++ "]") ∧
    (∀ (model : String) (messages : List Msg) (tracker : TutorOpenai.TokenTracker)
        (cause : String),
      TutorOpenai.call_openai model messages tracker (Except.error cause) =
        ("[Error calling " ++ model ++ ": " ++ cause ++ "]", tracker)) ∧
    (∀ (model : String) (messages : List Msg) (source url key cause : String),
      App.call_llm model messages source url key (Except.error cause) =
        "[Error calling " ++ model ++ " via " ++ source ++ ": " ++ cause ++ "]") :=
  ⟨fun _ _ _ => rfl, fun _ _ _ _ => rfl, fun _ _ _ _ _ _ => rfl⟩

/-- C5 (counterexample): the opening user message is not the same for every
participant asked — it addresses the participant by name, so two of the
program's own participants receive different opening messages. -/
theorem c5_counterexample :
    Main.user_prompt_of "Professor Maya" [] ≠ Main.user_prompt_of "Curious George" [] := by
  decide

/-- C5 (amended): on an empty transcript the Synthesizer produces a fixed
topic-introduction template that depends only on the participant's name (not
on its model, system prompt, or anything else), identically in the local
(`main.py`) and hosted (`tutor_openai.py`) variants; participants sharing a
name therefore receive the same opening message, but distinctly named ones do
not. -/
theorem c5_opening_template :
    (∀ name : String, Main.user_prompt_of name [] =
      "You are " ++ name ++ ".\nThe topic to discuss is: " ++ Main.INITIAL_TOPIC ++
        "\n\nStart the conversation by introducing the topic and asking an opening question.") ∧
    (∀ name : String, TutorOpenai.user_prompt_of name [] =
      "You are " ++ name ++ ".\nThe topic to discuss is: " ++ TutorOpenai.INITIAL_TOPIC ++
        "\n\nStart the conversation by introducing the topic and asking an opening question.") ∧
    (∀ name : String, Main.user_prompt_of name [] = TutorOpenai.user_prompt_of name []) :=
  ⟨fun _ => rfl, fun _ => rfl, fun _ => rfl⟩

/-- C6: for a non-empty transcript the user message is exactly the template
that names the participant as the speaker, embeds the entire transcript
rendered one "<speaker>: <content>" line per entry joined by blank lines
(nothing truncated, summarized or omitted), and instructs the participant to
respond naturally. -/
theorem c6_full_history_in_prompt (name : String) (history : List Entry)
    (hne : history ≠ []) :
    Main.user_prompt_of name history =
      "You are " ++ name ++ ".\n\nThe conversation so far is:\n" ++
        joinSep "\n\n" (history.map (fun entry => entry.speaker ++ ": " ++ entry.message)) ++
        "\n\nNow respond with what you would like to say next, as " ++ name ++
        ". Be natural and conversational." := by
  have hie : history.isEmpty = false := by
    simpa [List.isEmpty_eq_false] using hne
  rw [Main.user_prompt_of, Main.format_conversation, hie]
  simp

/-- C6 witness: the theorem at a concrete two-entry transcript. -/
theorem c6_full_history_in_prompt_witness :
    ([⟨"Professor Maya", "Hello class"⟩, ⟨"Curious George", "Why quotes?"⟩] : List Entry) ≠ [] ∧
    Main.user_prompt_of "Handson Alex"
        [⟨"Professor Maya", "Hello class"⟩, ⟨"Curious George", "Why quotes?"⟩] =
      "You are " ++ "Handson Alex" ++ ".\n\nThe conversation so far is:\n" ++
        joinSep "\n\n"
          (([⟨"Professor Maya", "Hello class"⟩, ⟨"Curious George", "Why quotes?"⟩] : List Entry).map
            (fun entry => entry.speaker ++ ": " ++ entry.message)) ++
        "\n\nNow respond with what you would like to say next, as " ++ "Handson Alex" ++
        ". Be natural and conversational." :=
  ⟨by decide,
   c6_full_history_in_prompt "Handson Alex"
     [⟨"Professor Maya", "Hello class"⟩, ⟨"Curious George", "Why quotes?"⟩] (by decide)⟩

/-- C7: in both orchestrators every provider call receives exactly two
messages — first a system message carrying the speaking participant's system
prompt unmodified, second the synthesized user message built from the
transcript-so-far — and nothing else (the raw history is never passed as
additional messages). -/
theorem c7_exactly_two_messages :
    (∀ (ps : List Main.Participant) (maxTurns : Nat) (oracle : Nat → Except String String),
      ps.length = 3 →
      ∃ transcript calls, Main.run_conversation ps maxTurns oracle = some transcript ∧
        Main.run_calls ps maxTurns oracle = some calls ∧ calls.length = maxTurns ∧
        ∀ i, i < maxTurns → ∃ p : Main.Participant, ps[i % 3]? = some p ∧
          calls[i]? = some ⟨p.model,
            [⟨"system", p.prompt⟩, ⟨"user", Main.user_prompt_of p.name (transcript.take i)⟩]⟩) ∧
    (∀ (ps : List App.Participant) (topic url key : String) (maxTurns : Nat)
        (oracle : Nat → Except String String),
      ps.length = 3 →
      ∃ hist calls, App.run_step_history ps topic url key maxTurns oracle = some hist ∧
        App.run_step_calls ps topic url key maxTurns oracle = some calls ∧
        calls.length = maxTurns ∧
        ∀ i, i < maxTurns → ∃ p : App.Participant, ps[i % 3]? = some p ∧
          calls[i]? = some ⟨p.model,
            [⟨"system", p.prompt⟩, ⟨"user", App.user_prompt_of topic p.name (hist.take i)⟩]⟩) := by
  constructor
  · intro ps maxTurns oracle hps
    obtain ⟨t, cs, hrun, hlen, hclen, hprop⟩ := main_run_loop_spec ps hps oracle maxTurns 0 [] []
    refine ⟨t, cs, by simp [Main.run_conversation, hrun], by simp [Main.run_calls, hrun],
      hclen, ?_⟩
    intro i hi
    obtain ⟨p, hp, ht, hc⟩ := hprop i hi
    simp only [Nat.zero_add] at hp hc
    exact ⟨p, hp, by simpa [Main.messages_of] using hc⟩
  · intro ps topic url key maxTurns oracle hps
    obtain ⟨t, m, cs, hrun, hlen, hmlen, hclen, hprop⟩ :=
      app_run_loop_spec ps hps topic url key oracle maxTurns 0 [] [] []
    refine ⟨t, cs,
      by simp [App.run_step_history, App.run_conversation_step, hrun],
      by simp [App.run_step_calls, App.run_conversation_step, hrun], hclen, ?_⟩
    intro i hi
    obtain ⟨p, hp, ht, hc⟩ := hprop i hi
    simp only [Nat.zero_add] at hp hc
    exact ⟨p, hp, by simpa [App.messages_of] using hc⟩

/-- C7 witness: both parts at concrete three-participant runs of two turns. -/
theorem c7_exactly_two_messages_witness :
    ps3.length = 3 ∧ psApp3.length = 3 ∧
    (∃ transcript calls, Main.run_conversation ps3 2 okOracle = some transcript ∧
      Main.run_calls ps3 2 okOracle = some calls ∧ calls.length = 2 ∧
      ∀ i, i < 2 → ∃ p : Main.Participant, ps3[i % 3]? = some p ∧
        calls[i]? = some ⟨p.model,
          [⟨"system", p.prompt⟩, ⟨"user", Main.user_prompt_of p.name (transcript.take i)⟩]⟩) ∧
    (∃ hist calls,
      App.run_step_history psApp3 "Sorting" "http://localhost:11434/v1" "ollama" 2 okOracle =
        some hist ∧
      App.run_step_calls psApp3 "Sorting" "http://localhost:11434/v1" "ollama" 2 okOracle =
        some calls ∧
      calls.length = 2 ∧
      ∀ i, i < 2 → ∃ p : App.Participant, psApp3[i % 3]? = some p ∧
        calls[i]? = some ⟨p.model,
          [⟨"system", p.prompt⟩, ⟨"user", App.user_prompt_of "Sorting" p.name (hist.take i)⟩]⟩) :=
  ⟨by decide, by decide,
   c7_exactly_two_messages.1 ps3 2 okOracle (by decide),
   c7_exactly_two_messages.2 psApp3 "Sorting" "http://localhost:11434/v1" "ollama" 2 okOracle
     (by decide)⟩

/-- C4: given the same participants (same name, model, prompt per slot), the
same topic, the same `max_turns`, and the same provider response for every
call, the batch loop of `main.py` and the step-wise generator loop of `app.py`
produce the same sequence of (speaker, content) pairs. -/
theorem c4_batch_incremental_equivalence
    (ps_m : List Main.Participant) (ps_a : List App.Participant)
    (maxTurns : Nat) (oracle : Nat → Except String String) (ollama_url api_key : String)
    (hm : ps_m.length = 3)
    (hcorr : ps_a.map (fun p => (p.name, p.model, p.prompt)) =
             ps_m.map (fun p => (p.name, p.model, p.prompt)))
    (hok : ∀ t, t < maxTurns → ∃ s, oracle t = Except.ok s) :
    ∃ tm ta, Main.run_conversation ps_m maxTurns oracle = some tm ∧
      App.run_step_history ps_a Main.INITIAL_TOPIC ollama_url api_key maxTurns oracle =
        some ta ∧
      tm.map (fun entry => (entry.speaker, entry.message)) =
        ta.map (fun entry => (entry.name, entry.content)) := by
  have ha : ps_a.length = 3 := by
    have hl := congrArg List.length hcorr
    simpa [hm] using hl
  obtain ⟨tm, cm, hrunm, hlenm, hclenm, hpropm⟩ :=
    main_run_loop_spec ps_m hm oracle maxTurns 0 [] []
  obtain ⟨ta, ma, ca, hruna, hlena, hmlena, hclena, hpropa⟩ :=
    app_run_loop_spec ps_a ha Main.INITIAL_TOPIC ollama_url api_key oracle maxTurns 0 [] [] []
  refine ⟨tm, ta, by simp [Main.run_conversation, hrunm],
    by simp [App.run_step_history, App.run_conversation_step, hruna], ?_⟩
  apply List.ext_getElem?
  intro i
  by_cases hi : i < maxTurns
  · obtain ⟨p, hp, htm, hcm2⟩ := hpropm i hi
    obtain ⟨q, hq, hta, hca2⟩ := hpropa i hi
    obtain ⟨s, hs⟩ := hok i hi
    simp only [Nat.zero_add] at hp htm hq hta
    have hqp : (q.name, q.model, q.prompt) = (p.name, p.model, p.prompt) := by
      have hcongr := congrArg (fun l => l[i % 3]?) hcorr
      simp only [List.getElem?_map, hp, hq, Option.map_some] at hcongr
      exact Option.some.inj hcongr
    have hname : q.name = p.name := congrArg Prod.fst hqp
    rw [List.getElem?_map, List.getElem?_map, htm, hta]
    simp [Main.get_next_response, Main.call_ollama, App.call_llm, hs, hname]
  · have h1 : tm[i]? = none := List.getElem?_eq_none (by omega)
    have h2 : ta[i]? = none := List.getElem?_eq_none (by omega)
    rw [List.getElem?_map, List.getElem?_map, h1, h2]
    rfl

/-- C4 witness: the equivalence at the program's own participants, two turns,
with every call succeeding. -/
theorem c4_batch_incremental_equivalence_witness :
    ps3.length = 3 ∧
    psApp3.map (fun p => (p.name, p.model, p.prompt)) =
      ps3.map (fun p => (p.name, p.model, p.prompt)) ∧
    (∃ tm ta, Main.run_conversation ps3 2 okOracle = some tm ∧
      App.run_step_history psApp3 Main.INITIAL_TOPIC "http://localhost:11434/v1" "ollama" 2
        okOracle = some ta ∧
      tm.map (fun entry => (entry.speaker, entry.message)) =
        ta.map (fun entry => (entry.name, entry.content))) :=
  ⟨by decide, by decide,
   c4_batch_incremental_equivalence ps3 psApp3 2 okOracle "http://localhost:11434/v1" "ollama"
     (by decide) (by decide) (fun t _ => ⟨"hi", rfl⟩)⟩

/-- Both price-table entries are non-negative for every model (table hits and
the zero default alike). -/
theorem pricing_nonneg (model : String) :
    0 ≤ ((TutorOpenai.PRICING.lookup model).getD (0, 0)).1 ∧
    0 ≤ ((TutorOpenai.PRICING.lookup model).getD (0, 0)).2 := by
  simp only [TutorOpenai.PRICING, List.lookup]
  repeat' split
  all_goals norm_num

/-- `add_interaction` preserves the tracker bookkeeping invariant. -/
theorem tracker_add_inv (t : TutorOpenai.TokenTracker) (model : String) (i o : Nat)
    (h : t.Inv) : (t.add_interaction model i o).1.Inv := by
  obtain ⟨h1, h2, h3⟩ := h
  refine ⟨?_, ?_, ?_⟩ <;>
    simp [TutorOpenai.TokenTracker.add_interaction, TutorOpenai.TokenTracker.Inv, h1, h2, h3]

/-- Folding recordings over any tracker preserves the invariant. -/
theorem tracker_foldl_inv (ops : List (String × Nat × Nat)) :
    ∀ t : TutorOpenai.TokenTracker, t.Inv →
      (ops.foldl (fun t op => (t.add_interaction op.1 op.2.1 op.2.2).1) t).Inv := by
  induction ops with
  | nil => intro t h; exact h
  | cons op ops ih =>
    intro t h
    exact ih _ (tracker_add_inv t op.1 op.2.1 op.2.2 h)

/-- The empty tracker satisfies the bookkeeping invariant. -/
theorem tracker_init_inv : TutorOpenai.TokenTracker.init.Inv :=
  ⟨rfl, rfl, rfl⟩

/-- C8: each recorded interaction's cost is
`(input_tokens/1e6)*input_price + (output_tokens/1e6)*output_price` with
prices from the static table; a model absent from the table yields cost 0
(totality of the embedding: no error is raised); and after any sequence of
recordings the aggregate cost equals the sum of the per-interaction costs. -/
theorem c8_cost_accounting :
    (∀ (tracker : TutorOpenai.TokenTracker) (model : String) (i o : Nat),
      (tracker.add_interaction model i o).1.interactions =
        tracker.interactions ++
          [⟨model, i, o,
            ((i : ℚ) / 1000000) * ((TutorOpenai.PRICING.lookup model).getD (0, 0)).1 +
            ((o : ℚ) / 1000000) * ((TutorOpenai.PRICING.lookup model).getD (0, 0)).2⟩]) ∧
    (∀ (tracker : TutorOpenai.TokenTracker) (model : String) (i o : Nat),
      TutorOpenai.PRICING.lookup model = none →
      (tracker.add_interaction model i o).2 = 0) ∧
    (∀ ops : List (String × Nat × Nat),
      (TutorOpenai.record_all ops).total_cost =
        ((TutorOpenai.record_all ops).interactions.map TutorOpenai.Interaction.cost).sum) := by
  refine ⟨fun tracker model i o => rfl, ?_, ?_⟩
  · intro tracker model i o h
    simp [TutorOpenai.TokenTracker.add_interaction, h]
  · intro ops
    exact (tracker_foldl_inv ops TutorOpenai.TokenTracker.init tracker_init_inv).2.2

/-- C8 witness: a model absent from the price table records cost 0. -/
theorem c8_cost_accounting_witness :
    TutorOpenai.PRICING.lookup "claude-3" = none ∧
    (TutorOpenai.TokenTracker.init.add_interaction "claude-3" 5 7).2 = 0 :=
  ⟨rfl, c8_cost_accounting.2.1 TutorOpenai.TokenTracker.init "claude-3" 5 7 rfl⟩

/-- C10: `add_interaction` preserves the invariant that each aggregate equals
the sum of the corresponding per-interaction fields; all three aggregates and
the interaction count are monotonically non-decreasing; and a provider call
that raises adds no interaction and returns the tracker unchanged. -/
theorem c10_tracker_invariant :
    (∀ (t : TutorOpenai.TokenTracker) (model : String) (i o : Nat),
      t.Inv → (t.add_interaction model i o).1.Inv) ∧
    (∀ (t : TutorOpenai.TokenTracker) (model : String) (i o : Nat),
      t.total_input_tokens ≤ (t.add_interaction model i o).1.total_input_tokens ∧
      t.total_output_tokens ≤ (t.add_interaction model i o).1.total_output_tokens ∧
      t.total_cost ≤ (t.add_interaction model i o).1.total_cost ∧
      t.interactions.length ≤ (t.add_interaction model i o).1.interactions.length) ∧
    (∀ (model : String) (messages : List Msg) (t : TutorOpenai.TokenTracker) (e : String),
      TutorOpenai.call_openai model messages t (Except.error e) =
        ("[Error calling " ++ model ++ ": " ++ e ++ "]", t)) := by
  refine ⟨tracker_add_inv, ?_, fun _ _ _ _ => rfl⟩
  intro t model i o
  have hin := pricing_nonneg model
  refine ⟨by simp [TutorOpenai.TokenTracker.add_interaction], ?_, ?_, ?_⟩
  · simp [TutorOpenai.TokenTracker.add_interaction]
  · have h1 : (0 : ℚ) ≤ ((i : ℚ) / 1000000) * ((TutorOpenai.PRICING.lookup model).getD (0, 0)).1 :=
      mul_nonneg (by positivity) hin.1
    have h2 : (0 : ℚ) ≤ ((o : ℚ) / 1000000) * ((TutorOpenai.PRICING.lookup model).getD (0, 0)).2 :=
      mul_nonneg (by positivity) hin.2
    simp only [TutorOpenai.TokenTracker.add_interaction]
    linarith
  · simp [TutorOpenai.TokenTracker.add_interaction]

/-- C10 witness: the invariant preservation applied to the empty tracker. -/
theorem c10_tracker_invariant_witness :
    TutorOpenai.TokenTracker.init.Inv ∧
    (TutorOpenai.TokenTracker.init.add_interaction "gpt-4o" 100 50).1.Inv :=
  ⟨⟨rfl, rfl, rfl⟩,
   c10_tracker_invariant.1 TutorOpenai.TokenTracker.init "gpt-4o" 100 50 ⟨rfl, rfl, rfl⟩⟩

/-- Python's `sep.join` on a non-empty list starts with the first element. -/
theorem joinSep_cons_head (sep x : String) (xs : List String) :
    ∃ r : String, joinSep sep (x :: xs) = x ++ r := by
  cases xs with
  | nil => exact ⟨"", by simp [joinSep]⟩
  | cons y ys => exact ⟨sep ++ joinSep sep (y :: ys), by simp [joinSep, String.append_assoc]⟩

/-- The rendering of a non-empty history always contains a colon (each entry
line is "<speaker>: <content>"). -/
theorem colon_mem_format (entry : Entry) (rest : List Entry) :
    ':' ∈ (Main.format_conversation (entry :: rest)).data := by
  obtain ⟨r, hr⟩ := joinSep_cons_head "\n\n" (entry.speaker ++ ": " ++ entry.message)
    (rest.map (fun e => e.speaker ++ ": " ++ e.message))
  rw [Main.format_conversation]
  simp only [List.isEmpty_cons, if_neg Bool.false_ne_true, List.map_cons]
  rw [hr]
  simp [String.data_append]

/-- The two batch variants define the same history formatter. -/
theorem tutor_format_eq_main :
    TutorOpenai.format_conversation = Main.format_conversation :=
  rfl

/-- The two batch variants define the same user-prompt synthesizer. -/
theorem tutor_user_prompt_eq_main :
    TutorOpenai.user_prompt_of = Main.user_prompt_of :=
  rfl

set_option maxRecDepth 10000 in
/-- C9 (counterexample): the user message CAN contain the placeholder string
"No conversation yet." — it suffices that some entry's content contains it,
since the whole history is embedded verbatim into the prompt. -/
theorem c9_counterexample :
    ("No conversation yet.").data <:+:
      (Main.user_prompt_of "A" [⟨"A", "No conversation yet."⟩]).data := by
  decide

set_option maxRecDepth 10000 in
/-- C9 (amended): `format_conversation` returns the placeholder exactly on the
empty history; the Synthesizer's empty-history branch discards it (the opening
prompt, which for the program's participant names does not contain the
placeholder, is used instead); and on non-empty histories the placeholder
branch is not taken — `format_conversation` never equals the placeholder
there.  Only histories whose own text embeds the placeholder can make the
user message contain it. -/
theorem c9_placeholder_discarded :
    (Main.format_conversation [] = "No conversation yet." ∧
     TutorOpenai.format_conversation [] = "No conversation yet.") ∧
    (∀ history : List Entry, history ≠ [] →
      Main.format_conversation history ≠ "No conversation yet." ∧
      TutorOpenai.format_conversation history ≠ "No conversation yet.") ∧
    (∀ name : String,
      name ∈ ["Professor Maya", "Curious George", "Handson Alex"] →
      ¬ ("No conversation yet.").data <:+: (Main.user_prompt_of name []).data ∧
      ¬ ("No conversation yet.").data <:+: (TutorOpenai.user_prompt_of name []).data) := by
  have hne : ∀ history : List Entry, history ≠ [] →
      Main.format_conversation history ≠ "No conversation yet." := by
    intro history h
    cases history with
    | nil => cases h rfl
    | cons entry rest =>
      intro heq
      have hc := colon_mem_format entry rest
      rw [heq] at hc
      revert hc
      decide
  refine ⟨⟨rfl, rfl⟩, ?_, ?_⟩
  · intro history h
    exact ⟨hne history h, by rw [tutor_format_eq_main]; exact hne history h⟩
  · intro name hmem
    rw [tutor_user_prompt_eq_main]
    fin_cases hmem <;> exact ⟨by decide, by decide⟩

/-- C9 witness: the amended theorem's hypotheses discharged concretely — a
one-entry history is not the placeholder, and "Professor Maya"'s opening
prompt does not contain the placeholder. -/
theorem c9_placeholder_discarded_witness :
    ([⟨"A", "x"⟩] : List Entry) ≠ [] ∧
    (Main.format_conversation [⟨"A", "x"⟩] ≠ "No conversation yet." ∧
     TutorOpenai.format_conversation [⟨"A", "x"⟩] ≠ "No conversation yet.") ∧
    "Professor Maya" ∈ ["Professor Maya", "Curious George", "Handson Alex"] ∧
    (¬ ("No conversation yet.").data <:+: (Main.user_prompt_of "Professor Maya" []).data ∧
     ¬ ("No conversation yet.").data <:+:
        (TutorOpenai.user_prompt_of "Professor Maya" []).data) :=
  ⟨by decide,
   c9_placeholder_discarded.2.1 [⟨"A", "x"⟩] (by decide),
   by decide,
   c9_placeholder_discarded.2.2 "Professor Maya" (by decide)⟩
